import Mathlib

/-!
Sentinel markers of `cuco` (`include/cuco/sentinel.hpp`)

The header declares three class templates in `namespace cuco::sentinel`:

    template <typename T> struct empty_key   { empty_key(T v)   : value{v} {}  T value; };
    template <typename T> struct empty_value { empty_value(T v) : value{v} {}  T value; };
    template <typename T> struct erased_key  { erased_key(T v)  : value{v} {}  T value; };

Each one is embedded as a one-field structure.  The C++ constructor
`empty_key(T v) : value{v} {}` is the structure constructor `empty_key.mk`, and
reading the public data member `value` is the projection `empty_key.value`.
-/

universe u v w

namespace cuco
namespace sentinel

/-! ## Data model (from the source) -/

/-- Marker wrapping the empty-key sentinel: `struct empty_key { empty_key(T v) : value{v} {} T value; }`. -/
structure empty_key (T : Type u) where
  value : T

/-- Marker wrapping the empty-value sentinel: `struct empty_value { empty_value(T v) : value{v} {} T value; }`. -/
structure empty_value (T : Type u) where
  value : T

/-- Marker wrapping the erased-key (tombstone) sentinel: `struct erased_key { erased_key(T v) : value{v} {} T value; }`. -/
structure erased_key (T : Type u) where
  value : T

/-! ## The constructors as steps over an ambient program state

`S` stands for every piece of program state that is not the object under
construction.  The member initialiser `value{v}` writes the new object's only
field and the constructor body `{}` is empty, so the ambient state is handed
back untouched. -/

/-- Running `empty_key(T v) : value{v} {}` in ambient state `s`. -/
def empty_key.construct {T : Type u} {S : Type w} (v : T) (s : S) : empty_key T × S :=
  (empty_key.mk v, s)

/-- Running `empty_value(T v) : value{v} {}` in ambient state `s`. -/
def empty_value.construct {T : Type u} {S : Type w} (v : T) (s : S) : empty_value T × S :=
  (empty_value.mk v, s)

/-- Running `erased_key(T v) : value{v} {}` in ambient state `s`. -/
def erased_key.construct {T : Type u} {S : Type w} (v : T) (s : S) : erased_key T × S :=
  (erased_key.mk v, s)

/-! ## Operations on a live marker object

`T value;` is declared in a `struct` with no access specifier and no `const`
qualifier: it is a public, non-const data member.  A marker object therefore
admits two member accesses, the read `m.value` and the assignment
`m.value = x;`.  The object is the state; a step returns the new object and
what the access produced (a read produces the value, an assignment nothing). -/

/-- Member accesses of a marker object with underlying type `T`. -/
inductive MarkerOp (T : Type u) where
  | read : MarkerOp T
  | write (x : T) : MarkerOp T

/-- One member access on an `empty_key` object. -/
def empty_key.step {T : Type u} (m : empty_key T) : MarkerOp T → empty_key T × Option T
  | .read => (m, some m.value)
  | .write x => ({ m with value := x }, none)

/-- One member access on an `empty_value` object. -/
def empty_value.step {T : Type u} (m : empty_value T) : MarkerOp T → empty_value T × Option T
  | .read => (m, some m.value)
  | .write x => ({ m with value := x }, none)

/-- One member access on an `erased_key` object. -/
def erased_key.step {T : Type u} (m : erased_key T) : MarkerOp T → erased_key T × Option T
  | .read => (m, some m.value)
  | .write x => ({ m with value := x }, none)

/-- A sequence of member accesses on an `empty_key` object: the final object and
the values the reads returned, in order. -/
def empty_key.exec {T : Type u} (m : empty_key T) : List (MarkerOp T) → empty_key T × List T
  | [] => (m, [])
  | op :: ops =>
    let r := m.step op
    let rest := empty_key.exec r.1 ops
    (rest.1, r.2.toList ++ rest.2)

/-- A sequence of member accesses on an `empty_value` object. -/
def empty_value.exec {T : Type u} (m : empty_value T) : List (MarkerOp T) → empty_value T × List T
  | [] => (m, [])
  | op :: ops =>
    let r := m.step op
    let rest := empty_value.exec r.1 ops
    (rest.1, r.2.toList ++ rest.2)

/-- A sequence of member accesses on an `erased_key` object. -/
def erased_key.exec {T : Type u} (m : erased_key T) : List (MarkerOp T) → erased_key T × List T
  | [] => (m, [])
  | op :: ops =>
    let r := m.step op
    let rest := erased_key.exec r.1 ops
    (rest.1, r.2.toList ++ rest.2)

/-! ## The consumers of the markers

The header holds the three wrappers only.  The owning map, which checks the
configured pair at construction and compares slot contents against the
markers, lives elsewhere in the library; what follows restates the
specification's description of it. -/

/-- Modelled from the spec: the error taxonomy of the sentinel registry; the
only checkable failure is the marker collision (`SentinelError::Collision`,
also written `SentinelCollision`).  The header declares no error type. -/
inductive SentinelError where
  | Collision : SentinelError
  deriving DecidableEq, Repr

/-- Modelled from the spec: the `validate(emptyKey, erasedKey)` call, which the
header does not contain.  It fails with `SentinelError::Collision` when
EmptyKey and ErasedKey compare equal (invariant I1) and reports no error
otherwise. -/
def validate {K : Type u} [DecidableEq K] (ek : empty_key K) (dk : erased_key K) :
    Except SentinelError Unit :=
  if ek.value = dk.value then Except.error SentinelError.Collision else Except.ok ()

/-- Modelled from the spec: the Sentinel Registry, which the header does not
contain.  It holds the three caller-supplied constants behind the accessors
`emptyKey() -> K`, `emptyValue() -> V` and `erasedKey() -> K`. -/
structure SentinelRegistry (K : Type u) (V : Type v) where
  emptyKey : K
  emptyValue : V
  erasedKey : K

/-- Modelled from the spec: construction of the registry from the three
markers, which the header does not contain.  The collision check is performed
eagerly, and a collision makes construction fail. -/
def SentinelRegistry.construct {K : Type u} {V : Type v} [DecidableEq K]
    (ek : empty_key K) (ev : empty_value V) (dk : erased_key K) :
    Except SentinelError (SentinelRegistry K V) :=
  match validate ek dk with
  | Except.error e => Except.error e
  | Except.ok () => Except.ok { emptyKey := ek.value, emptyValue := ev.value, erasedKey := dk.value }

/-- Modelled from the spec: the comparison of a slot's current content with the
empty-key marker, performed by the map and absent from the header: value
equality on the underlying type, with no caller-supplied predicate. -/
def empty_key.slot_matches {K : Type u} [DecidableEq K] (s : empty_key K) (c : K) : Bool :=
  decide (c = s.value)

/-- Modelled from the spec: the comparison of a slot's value half with the
empty-value marker, performed by the map and absent from the header. -/
def empty_value.slot_matches {V : Type u} [DecidableEq V] (s : empty_value V) (c : V) : Bool :=
  decide (c = s.value)

/-- Modelled from the spec: the comparison of a slot's current content with the
erased-key marker, performed by the map and absent from the header. -/
def erased_key.slot_matches {K : Type u} [DecidableEq K] (s : erased_key K) (c : K) : Bool :=
  decide (c = s.value)

/-- Modelled from the spec: the occupancy states a probe tells apart with one
comparison: empty, tombstoned, or live.  Absent from the header. -/
inductive SlotState where
  | empty : SlotState
  | tombstone : SlotState
  | live : SlotState
  deriving DecidableEq, Repr

/-- Modelled from the spec: how the map (absent from the header) reads a slot's
key content against the two key markers. -/
def slot_state {K : Type u} [DecidableEq K] (ek : empty_key K) (dk : erased_key K) (c : K) :
    SlotState :=
  if ek.slot_matches c then SlotState.empty
  else if dk.slot_matches c then SlotState.tombstone
  else SlotState.live

/-- Modelled from the spec: what a probe for a key does at one slot.  Absent
from the header. -/
inductive ProbeAction where
  | stop_not_found : ProbeAction
  | continue_probing : ProbeAction
  | found : ProbeAction
  deriving DecidableEq, Repr

/-- Modelled from the spec: the probe decision at one slot, absent from the
header.  Probing may stop at a truly empty slot and must continue past a
tombstone; a live slot ends the probe when it holds the key sought. -/
def probe_slot {K : Type u} [DecidableEq K] (ek : empty_key K) (dk : erased_key K)
    (k c : K) : ProbeAction :=
  match slot_state ek dk c with
  | SlotState.empty => ProbeAction.stop_not_found
  | SlotState.tombstone => ProbeAction.continue_probing
  | SlotState.live => if c = k then ProbeAction.found else ProbeAction.continue_probing

/-- Modelled from the spec: a probe along a finite probe sequence of slots,
absent from the header.  It returns the position of the key, or `none` when it
stops at an empty slot or runs out of slots. -/
def probe {K : Type u} [DecidableEq K] (ek : empty_key K) (dk : erased_key K) (k : K) :
    List K → Option Nat
  | [] => none
  | c :: cs =>
    match probe_slot ek dk k c with
    | ProbeAction.stop_not_found => none
    | ProbeAction.found => some 0
    | ProbeAction.continue_probing => (probe ek dk k cs).map Nat.succ

/-- Modelled from the spec: insertion of user key `k` at a slot, absent from
the header.  A slot bearing EmptyKey is unoccupied and available for
insertion; any other content is left as it is. -/
def insert_slot {K : Type u} [DecidableEq K] (ek : empty_key K) (k c : K) : K :=
  if ek.slot_matches c then k else c

/-- Modelled from the spec: logical deletion of user key `k` at a slot, absent
from the header.  A slot holding `k` becomes ErasedKey-bearing; any other
content is left as it is. -/
def erase_slot {K : Type u} [DecidableEq K] (dk : erased_key K) (k c : K) : K :=
  if c = k then dk.value else c

/-! ## Helper lemmas -/

theorem empty_key_exec_reads {T : Type u} (m : empty_key T) (n : Nat) :
    empty_key.exec m (List.replicate n MarkerOp.read) = (m, List.replicate n m.value) := by
  induction n with
  | zero => rfl
  | succ n ih => simp [List.replicate_succ, empty_key.exec, empty_key.step, ih]

theorem empty_value_exec_reads {T : Type u} (m : empty_value T) (n : Nat) :
    empty_value.exec m (List.replicate n MarkerOp.read) = (m, List.replicate n m.value) := by
  induction n with
  | zero => rfl
  | succ n ih => simp [List.replicate_succ, empty_value.exec, empty_value.step, ih]

theorem erased_key_exec_reads {T : Type u} (m : erased_key T) (n : Nat) :
    erased_key.exec m (List.replicate n MarkerOp.read) = (m, List.replicate n m.value) := by
  induction n with
  | zero => rfl
  | succ n ih => simp [List.replicate_succ, erased_key.exec, erased_key.step, ih]

theorem validate_eq_error_iff {K : Type u} [DecidableEq K] (ek : empty_key K)
    (dk : erased_key K) :
    validate ek dk = Except.error SentinelError.Collision ↔ ek.value = dk.value := by
  unfold validate
  by_cases h : ek.value = dk.value <;> simp [h]

theorem validate_eq_ok_iff {K : Type u} [DecidableEq K] (ek : empty_key K)
    (dk : erased_key K) :
    validate ek dk = Except.ok () ↔ ek.value ≠ dk.value := by
  unfold validate
  by_cases h : ek.value = dk.value <;> simp [h]

/-! ## The claims -/

/-- Claim C1 (round trip): for every type `T` and every `v : T`, reading the
`value` member of the marker built from `v` returns `v`, for `empty_key`,
`empty_value` and `erased_key` alike. -/
theorem value_round_trip :
    (∀ (T : Type u) (v : T), (empty_key.mk v).value = v) ∧
    (∀ (T : Type u) (v : T), (empty_value.mk v).value = v) ∧
    (∀ (T : Type u) (v : T), (erased_key.mk v).value = v) :=
  ⟨fun _ _ => rfl, fun _ _ => rfl, fun _ _ => rfl⟩

/-- Claim C2 (collision): for every key value `k`, validation of an empty-key
marker and an erased-key marker that both wrap `k` reports
`SentinelError.Collision`, and so does construction of the registry from them,
whatever the empty-value marker; in particular for the 32-bit key
`0xFFFFFFFF` used as both markers. -/
theorem collision_rejected :
    (∀ (K : Type u) (V : Type v) [DecidableEq K] (k : K) (ev : empty_value V),
      validate (empty_key.mk k) (erased_key.mk k) = Except.error SentinelError.Collision ∧
      SentinelRegistry.construct (empty_key.mk k) ev (erased_key.mk k)
        = Except.error SentinelError.Collision) ∧
    ((0xFFFFFFFF : Nat) < 2 ^ 32 ∧
      validate (empty_key.mk (0xFFFFFFFF : Nat)) (erased_key.mk 0xFFFFFFFF)
        = Except.error SentinelError.Collision ∧
      ∀ (V : Type v) (ev : empty_value V),
        SentinelRegistry.construct (empty_key.mk (0xFFFFFFFF : Nat)) ev (erased_key.mk 0xFFFFFFFF)
          = Except.error SentinelError.Collision) := by
  have key : ∀ (K : Type u) (V : Type v) [DecidableEq K] (k : K) (ev : empty_value V),
      validate (empty_key.mk k) (erased_key.mk k) = Except.error SentinelError.Collision ∧
      SentinelRegistry.construct (empty_key.mk k) ev (erased_key.mk k)
        = Except.error SentinelError.Collision := by
    intro K V _ k ev
    have hv : validate (empty_key.mk k) (erased_key.mk k)
        = Except.error SentinelError.Collision := by simp [validate]
    exact ⟨hv, by simp [SentinelRegistry.construct, hv]⟩
  refine ⟨key, by norm_num, by simp [validate], ?_⟩
  intro V ev
  simp [SentinelRegistry.construct, validate]

/-- Claim C3 (distinct markers): for every pair of key values `e ≠ d`,
validation of `empty_key e` against `erased_key d` reports no error and
construction of the registry succeeds, yielding a registry that holds `e`, the
empty value and `d`. -/
theorem distinct_accepted (K : Type u) (V : Type v) [DecidableEq K] (e d : K)
    (ev : empty_value V) (h : e ≠ d) :
    validate (empty_key.mk e) (erased_key.mk d) = Except.ok () ∧
    SentinelRegistry.construct (empty_key.mk e) ev (erased_key.mk d)
      = Except.ok { emptyKey := e, emptyValue := ev.value, erasedKey := d } := by
  have hv : validate (empty_key.mk e) (erased_key.mk d) = Except.ok () := by
    simp [validate, h]
  exact ⟨hv, by simp [SentinelRegistry.construct, hv]⟩

/-- The 32-bit scenario of claim C3: EmptyKey `0xFFFFFFFF` and ErasedKey
`0xFFFFFFFE` are distinct, validation reports no error and construction
succeeds. -/
theorem distinct_accepted_witness :
    (0xFFFFFFFF : Nat) ≠ 0xFFFFFFFE ∧
    (validate (empty_key.mk (0xFFFFFFFF : Nat)) (erased_key.mk 0xFFFFFFFE) = Except.ok () ∧
     SentinelRegistry.construct (empty_key.mk (0xFFFFFFFF : Nat)) (empty_value.mk (0 : Nat))
        (erased_key.mk 0xFFFFFFFE)
      = Except.ok { emptyKey := 0xFFFFFFFF, emptyValue := 0, erasedKey := 0xFFFFFFFE }) :=
  ⟨by decide, distinct_accepted Nat Nat 0xFFFFFFFF 0xFFFFFFFE (empty_value.mk 0) (by decide)⟩

/-- Claim C4 as stated fails: the `value` member is public and non-const, so the
assignment `m.value = 5;` on a marker constructed from `-1` leaves a marker
whose value is `5`, and the next read returns `5`; the same holds for all
three wrappers.  Hence it is not true that every sequence of member accesses
leaves the value the marker was constructed from. -/
theorem value_overwritten :
    ((empty_key.mk (-1 : Int)).exec [MarkerOp.write 5, MarkerOp.read]
        = (empty_key.mk 5, [5]) ∧
     (empty_value.mk (-1 : Int)).exec [MarkerOp.write 5, MarkerOp.read]
        = (empty_value.mk 5, [5]) ∧
     (erased_key.mk (-1 : Int)).exec [MarkerOp.write 5, MarkerOp.read]
        = (erased_key.mk 5, [5])) ∧
    (5 : Int) ≠ -1 ∧
    ¬ (∀ (v : Int) (ops : List (MarkerOp Int)),
        ((empty_key.mk v).exec ops).1.value = v) := by
  refine ⟨⟨rfl, rfl, rfl⟩, by decide, ?_⟩
  intro hall
  have h := hall (-1) [MarkerOp.write 5]
  simp [empty_key.exec, empty_key.step] at h

/-- Claim C4 as amended: reading never modifies a marker.  For every type `T`,
every `v : T` and every `n`, performing `n` successive reads on the marker
constructed from `v` returns `v` each time and leaves the marker equal to the
one constructed from `v`; this holds for all three wrappers.  The only member
access that changes the value is an assignment to the public member, after
which reads return the assigned value. -/
theorem reads_stable :
    (∀ (T : Type u) (v : T) (n : Nat),
      (empty_key.mk v).exec (List.replicate n MarkerOp.read)
        = (empty_key.mk v, List.replicate n v)) ∧
    (∀ (T : Type u) (v : T) (n : Nat),
      (empty_value.mk v).exec (List.replicate n MarkerOp.read)
        = (empty_value.mk v, List.replicate n v)) ∧
    (∀ (T : Type u) (v : T) (n : Nat),
      (erased_key.mk v).exec (List.replicate n MarkerOp.read)
        = (erased_key.mk v, List.replicate n v)) ∧
    (∀ (T : Type u) (v x : T) (n : Nat),
      (empty_key.mk v).exec (MarkerOp.write x :: List.replicate n MarkerOp.read)
        = (empty_key.mk x, List.replicate n x) ∧
      (empty_value.mk v).exec (MarkerOp.write x :: List.replicate n MarkerOp.read)
        = (empty_value.mk x, List.replicate n x) ∧
      (erased_key.mk v).exec (MarkerOp.write x :: List.replicate n MarkerOp.read)
        = (erased_key.mk x, List.replicate n x)) := by
  refine ⟨fun T v n => empty_key_exec_reads _ n, fun T v n => empty_value_exec_reads _ n,
    fun T v n => erased_key_exec_reads _ n, ?_⟩
  intro T v x n
  refine ⟨?_, ?_, ?_⟩
  · simp [empty_key.exec, empty_key.step, empty_key_exec_reads]
  · simp [empty_value.exec, empty_value.step, empty_value_exec_reads]
  · simp [erased_key.exec, erased_key.step, erased_key_exec_reads]

/-- Claim C5 (equality): two markers of the same kind built from `a` and `b`
are the same marker exactly when `a = b`, and more generally two markers are
equal exactly when their values are; a slot content `c` matches a sentinel `s`
exactly when `c = s.value`, which is the same as saying that wrapping `c` gives
`s`.  This holds for `empty_key`, `empty_value` and `erased_key`. -/
theorem marker_eq_iff_value_eq :
    (∀ (T : Type u) (a b : T),
      (empty_key.mk a = empty_key.mk b ↔ a = b) ∧
      (empty_value.mk a = empty_value.mk b ↔ a = b) ∧
      (erased_key.mk a = erased_key.mk b ↔ a = b)) ∧
    (∀ (T : Type u),
      (∀ m n : empty_key T, m = n ↔ m.value = n.value) ∧
      (∀ m n : empty_value T, m = n ↔ m.value = n.value) ∧
      (∀ m n : erased_key T, m = n ↔ m.value = n.value)) ∧
    (∀ (T : Type u) [DecidableEq T] (c : T),
      (∀ s : empty_key T, (s.slot_matches c = true ↔ c = s.value) ∧
        (s.slot_matches c = true ↔ empty_key.mk c = s)) ∧
      (∀ s : empty_value T, (s.slot_matches c = true ↔ c = s.value) ∧
        (s.slot_matches c = true ↔ empty_value.mk c = s)) ∧
      (∀ s : erased_key T, (s.slot_matches c = true ↔ c = s.value) ∧
        (s.slot_matches c = true ↔ erased_key.mk c = s))) := by
  refine ⟨?_, ?_, ?_⟩
  · intro T a b
    exact ⟨by simp, by simp, by simp⟩
  · intro T
    refine ⟨?_, ?_, ?_⟩
    · rintro ⟨a⟩ ⟨b⟩
      simp
    · rintro ⟨a⟩ ⟨b⟩
      simp
    · rintro ⟨a⟩ ⟨b⟩
      simp
  · intro T _ c
    refine ⟨?_, ?_, ?_⟩
    · rintro ⟨a⟩
      simp [empty_key.slot_matches]
    · rintro ⟨a⟩
      simp [empty_value.slot_matches]
    · rintro ⟨a⟩
      simp [erased_key.slot_matches]

/-- Claim C6 (construction is total): for every type `T` and every `v : T`,
each of the three constructors yields a marker carrying `v`; no value is
rejected, and the same `v` may be wrapped both as an empty key and as an erased
key. -/
theorem construction_total :
    ∀ (T : Type u) (v : T),
      (∃ m : empty_key T, m = empty_key.mk v ∧ m.value = v) ∧
      (∃ m : empty_value T, m = empty_value.mk v ∧ m.value = v) ∧
      (∃ m : erased_key T, m = erased_key.mk v ∧ m.value = v) ∧
      (∃ (ek : empty_key T) (dk : erased_key T),
        ek = empty_key.mk v ∧ dk = erased_key.mk v ∧ ek.value = dk.value) :=
  fun _ _ => ⟨⟨_, rfl, rfl⟩, ⟨_, rfl, rfl⟩, ⟨_, rfl, rfl⟩, ⟨_, _, rfl, rfl, rfl⟩⟩

/-- Claim C7 (a marker is its value): for each of the three wrappers,
rebuilding a marker from its own value gives the marker back, reading the value
of a freshly built marker gives the argument back, and hence the constructor
is a bijection between `T` and the wrapper. -/
theorem construct_value_inverse :
    ∀ (T : Type u),
      ((∀ w : empty_key T, empty_key.mk w.value = w) ∧
       (∀ v : T, (empty_key.mk v).value = v) ∧
       Function.Bijective (empty_key.mk : T → empty_key T)) ∧
      ((∀ w : empty_value T, empty_value.mk w.value = w) ∧
       (∀ v : T, (empty_value.mk v).value = v) ∧
       Function.Bijective (empty_value.mk : T → empty_value T)) ∧
      ((∀ w : erased_key T, erased_key.mk w.value = w) ∧
       (∀ v : T, (erased_key.mk v).value = v) ∧
       Function.Bijective (erased_key.mk : T → erased_key T)) := by
  intro T
  refine ⟨⟨fun _ => rfl, fun _ => rfl, ?_, ?_⟩, ⟨fun _ => rfl, fun _ => rfl, ?_, ?_⟩,
    ⟨fun _ => rfl, fun _ => rfl, ?_, ?_⟩⟩
  · intro a b h
    exact congrArg empty_key.value h
  · intro w
    exact ⟨w.value, rfl⟩
  · intro a b h
    exact congrArg empty_value.value h
  · intro w
    exact ⟨w.value, rfl⟩
  · intro a b h
    exact congrArg erased_key.value h
  · intro w
    exact ⟨w.value, rfl⟩

/-- Claim C8 (determinism, no side effects): constructions from equal
arguments `a = b` yield equal markers whatever ambient states `s1`, `s2` they
run in, and each construction hands its ambient state back unchanged; this
holds for all three constructors. -/
theorem construction_deterministic (T : Type u) (S : Type w) (a b : T) (s1 s2 : S)
    (h : a = b) :
    (empty_key.mk a = empty_key.mk b ∧
      (empty_key.construct a s1).1 = (empty_key.construct b s2).1 ∧
      (empty_key.construct a s1).2 = s1) ∧
    (empty_value.mk a = empty_value.mk b ∧
      (empty_value.construct a s1).1 = (empty_value.construct b s2).1 ∧
      (empty_value.construct a s1).2 = s1) ∧
    (erased_key.mk a = erased_key.mk b ∧
      (erased_key.construct a s1).1 = (erased_key.construct b s2).1 ∧
      (erased_key.construct a s1).2 = s1) := by
  subst h
  exact ⟨⟨rfl, rfl, rfl⟩, ⟨rfl, rfl, rfl⟩, ⟨rfl, rfl, rfl⟩⟩

/-- Claim C8 at a concrete input: two constructions from `-1`, run in the
different ambient states `0` and `1`, give equal markers and leave the state. -/
theorem construction_deterministic_witness :
    ((-1 : Int) = -1) ∧
    ((empty_key.mk (-1 : Int) = empty_key.mk (-1 : Int) ∧
      (empty_key.construct (-1 : Int) (0 : Nat)).1 = (empty_key.construct (-1 : Int) (1 : Nat)).1 ∧
      (empty_key.construct (-1 : Int) (0 : Nat)).2 = 0) ∧
    (empty_value.mk (-1 : Int) = empty_value.mk (-1 : Int) ∧
      (empty_value.construct (-1 : Int) (0 : Nat)).1
        = (empty_value.construct (-1 : Int) (1 : Nat)).1 ∧
      (empty_value.construct (-1 : Int) (0 : Nat)).2 = 0) ∧
    (erased_key.mk (-1 : Int) = erased_key.mk (-1 : Int) ∧
      (erased_key.construct (-1 : Int) (0 : Nat)).1
        = (erased_key.construct (-1 : Int) (1 : Nat)).1 ∧
      (erased_key.construct (-1 : Int) (0 : Nat)).2 = 0)) :=
  ⟨rfl, construction_deterministic Int Nat (-1) (-1) 0 1 rfl⟩

/-- Claim C9 (independent type parameters): for all types `K` and `V`, equal or
not, and all `k : K`, `v : V`, an empty-key marker and an empty-value marker can
both be built, and each carries its own argument unchanged. -/
theorem key_value_independent :
    ∀ (K : Type u) (V : Type v) (k : K) (x : V),
      ∃ (ek : empty_key K) (ev : empty_value V),
        ek = empty_key.mk k ∧ ev = empty_value.mk x ∧ ek.value = k ∧ ev.value = x :=
  fun _ _ _ _ => ⟨_, _, rfl, rfl, rfl, rfl⟩

/-- Claim C10 (tombstone lifecycle): with signed keys, EmptyKey `-1` and
ErasedKey `-2`, a slot that starts EmptyKey-bearing holds `5` after user key
`5` is inserted and is ErasedKey-bearing after `5` is erased; the three
contents are read as empty, live and tombstone; a probe for `5` at the
tombstone continues instead of stopping, so that along the probe sequence
`[-2, 5, -1]` the key is found at position `1`; and `-1`, `5`, `-2` are
pairwise different values within the signed 32-bit range. -/
theorem tombstone_lifecycle :
    (empty_key.mk (-1 : Int)).value = -1 ∧
    slot_state (empty_key.mk (-1 : Int)) (erased_key.mk (-2)) (-1) = SlotState.empty ∧
    insert_slot (empty_key.mk (-1 : Int)) 5 (-1) = 5 ∧
    slot_state (empty_key.mk (-1 : Int)) (erased_key.mk (-2)) 5 = SlotState.live ∧
    erase_slot (erased_key.mk (-2 : Int)) 5 (insert_slot (empty_key.mk (-1 : Int)) 5 (-1))
      = (erased_key.mk (-2 : Int)).value ∧
    slot_state (empty_key.mk (-1 : Int)) (erased_key.mk (-2)) (-2) = SlotState.tombstone ∧
    probe_slot (empty_key.mk (-1 : Int)) (erased_key.mk (-2)) 5
        (erase_slot (erased_key.mk (-2 : Int)) 5 (insert_slot (empty_key.mk (-1 : Int)) 5 (-1)))
      = ProbeAction.continue_probing ∧
    probe_slot (empty_key.mk (-1 : Int)) (erased_key.mk (-2)) 5 (-1)
      = ProbeAction.stop_not_found ∧
    probe (empty_key.mk (-1 : Int)) (erased_key.mk (-2)) 5 [-2, 5, -1] = some 1 ∧
    ((-1 : Int) ≠ 5 ∧ (5 : Int) ≠ -2 ∧ (-1 : Int) ≠ -2) ∧
    (-(2 : Int) ^ 31 ≤ -2 ∧ (5 : Int) < 2 ^ 31) := by
  refine ⟨rfl, ?_, ?_, ?_, ?_, ?_, ?_, ?_, ?_, ?_, ?_⟩ <;> decide

end sentinel
end cuco
